import Mathlib

/-!
Shallow embedding of `auto-natpmp.py`, a daemon that maintains a NAT-PMP
port mapping and publishes the current external port to a state file.

The embedding models:
  * `extract_public_port` / the regex scan for "Mapped public port N";
  * `run_natpmpc_command` (the external tool call, whose outcome is part of
    the per-iteration environment: `none` models a non-zero exit);
  * `save_port_to_file` (the environment says whether the write succeeds);
  * one iteration of the `while True` body of `main` (`loopStep`);
  * multi-iteration runs (`runTrace`) and signal / crash handling
    (`runEvents`);
  * the file-removal cleanup on an association-list file system
    (`clearPortFile`).
Python truthiness tests on strings (`if not output`) are modelled as
emptiness tests, matching CPython semantics for `str`.
-/

namespace AutoNatpmp

/-- Log levels of the `logging` module that the script uses. -/
inductive Level where
  | debug
  | info
  | warning
  | error
deriving DecidableEq, Repr

/-- One emitted log record: a level and a message. -/
structure LogEvent where
  level : Level
  msg : String
deriving DecidableEq, Repr

/-- Python truthiness of an optional string: `None` and `""` are falsy. -/
def truthy : Option String → Bool
  | none => false
  | some s => s != ""

/-- The literal part of the regex `r"Mapped public port (\d+)"`. -/
def mappedPat : List Char := "Mapped public port ".toList

/-- Does the literal pattern occur at index `i` of `cs`? -/
def startsWithAt (cs : List Char) (i : Nat) : Bool :=
  (cs.drop i).take mappedPat.length == mappedPat

/-- The maximal digit run right after the literal pattern at index `i`
(the greedy `(\d+)` capture, possibly empty when there is no digit). -/
def digitRunAt (cs : List Char) (i : Nat) : List Char :=
  (cs.drop (i + mappedPat.length)).takeWhile Char.isDigit

/-- The regex `Mapped public port (\d+)` matches at index `i`: the literal
occurs there and at least one digit follows. -/
def regexMatchAt (cs : List Char) (i : Nat) : Bool :=
  startsWithAt cs i && !(digitRunAt cs i).isEmpty

/-- The scan performed by `re.search(r"Mapped public port (\d+)", output)`:
try each index from the left, return `group(1)` of the first match. -/
def findMapped : List Char → Option String
  | [] => none
  | c :: rest =>
      if regexMatchAt (c :: rest) 0 then
        some (String.mk (digitRunAt (c :: rest) 0))
      else findMapped rest

/-- `extract_public_port(output, logger)` (lines 93-104): `None` on falsy
output; otherwise the first regex capture, or `None` plus a warning and a
debug log when the pattern is absent.  Returns the result and the emitted
log events. -/
def extract_public_port (output : String) : Option String × List LogEvent :=
  if output = "" then (none, [])
  else
    match findMapped output.toList with
    | some p => (some p, [])
    | none =>
        (none,
          [⟨Level.warning, "Could not find public port in output"⟩,
           ⟨Level.debug, s!"Full output: {output}"⟩])

/-- `run_natpmpc_command(protocol, ...)` (lines 79-91).  The environment
supplies the tool outcome: `some out` is a zero-exit run with stdout `out`,
`none` is a `CalledProcessError` (non-zero exit), which is logged at error
level and turned into a `None` return. -/
def run_natpmpc_command (protocol : String) (resp : Option String) :
    Option String × List LogEvent :=
  match resp with
  | some out => (some out, [⟨Level.debug, s!"Running command for {protocol}"⟩])
  | none =>
      (none,
        [⟨Level.debug, s!"Running command for {protocol}"⟩,
         ⟨Level.error, s!"natpmpc command failed for {protocol}"⟩,
         ⟨Level.error, "Error output captured"⟩])

/-- `save_port_to_file(port, port_file, logger)` (lines 70-77).  `writeOk`
says whether the file write raises; on failure the error is logged and the
function returns normally (non-fatal), leaving the file as it was. -/
def save_port_to_file (port : String) (file : Option String) (writeOk : Bool) :
    Option String × List LogEvent :=
  if writeOk then (some port, [⟨Level.info, s!"Port {port} saved to file"⟩])
  else (file, [⟨Level.error, "Failed to write port to file"⟩])

/-- The state carried across loop iterations: `current_port` (the in-memory
last published value) and the content of the port file (`none` = absent). -/
structure LoopState where
  currentPort : Option String
  file : Option String
deriving DecidableEq, Repr

/-- The per-iteration environment: the two tool outcomes and whether a file
write would succeed this iteration. -/
structure IterEnv where
  udpResp : Option String
  tcpResp : Option String
  writeOk : Bool
deriving DecidableEq, Repr

/-- Observable effects of one iteration: whether the TCP tool call was
issued, whether `save_port_to_file` was called, how long the iteration
sleeps at its end (5 is the hard-coded retry backoff), and the log trace. -/
structure IterEffects where
  tcpCalled : Bool
  saveCalled : Bool
  sleepSecs : Nat
  logs : List LogEvent
deriving DecidableEq, Repr

/-- Lines 174-184 of `main`: validate the two extracted ports, warn on
mismatch, and publish the TCP port when it differs from `current_port`. -/
def validateAndPublish (sleepTime : Nat) (writeOk : Bool) (s : LoopState)
    (udpPort tcpPort : Option String) (baseLogs : List LogEvent) :
    LoopState × IterEffects :=
  if truthy udpPort && truthy tcpPort then
    let mismatchLogs :=
      if udpPort != tcpPort then
        [⟨Level.warning, "UDP port does not match TCP port"⟩]
      else []
    if s.currentPort != tcpPort then
      let saved := save_port_to_file (tcpPort.getD "") s.file writeOk
      (⟨tcpPort, saved.1⟩,
        ⟨true, true, sleepTime,
          baseLogs ++ mismatchLogs ++ saved.2 ++ [⟨Level.info, "Port updated"⟩]⟩)
    else
      (s, ⟨true, false, sleepTime, baseLogs ++ mismatchLogs⟩)
  else
    (s,
      ⟨true, false, sleepTime,
        baseLogs ++ [⟨Level.warning, "Failed to extract ports from output"⟩]⟩)

/-- One full iteration of the `while True` body of `main` (lines 151-187):
UDP call, truthiness gate, extraction, TCP call, truthiness gate,
extraction, then validate-and-publish; the two falsy-output branches sleep
5 seconds and `continue`. -/
def loopStep (sleepTime : Nat) (s : LoopState) (env : IterEnv) :
    LoopState × IterEffects :=
  let udpRun := run_natpmpc_command "udp" env.udpResp
  if !truthy udpRun.1 then
    (s, ⟨false, false, 5,
      udpRun.2 ++ [⟨Level.error, "UDP forwarding failed, will retry"⟩]⟩)
  else
    let udpEx := extract_public_port (udpRun.1.getD "")
    let tcpRun := run_natpmpc_command "tcp" env.tcpResp
    if !truthy tcpRun.1 then
      (s, ⟨true, false, 5,
        udpRun.2 ++ udpEx.2 ++ tcpRun.2 ++
          [⟨Level.error, "TCP forwarding failed, will retry"⟩]⟩)
    else
      let tcpEx := extract_public_port (tcpRun.1.getD "")
      validateAndPublish sleepTime env.writeOk s udpEx.1 tcpEx.1
        (udpRun.2 ++ udpEx.2 ++ tcpRun.2 ++ tcpEx.2)

/-- The extracted port of one tool outcome, as the loop computes it. -/
def extractedPort (resp : Option String) : Option String :=
  (extract_public_port (resp.getD "")).1

/-- The canonical (TCP-derived) port of an iteration whose two tool calls
returned truthy output and whose two extractions both yielded a port; the
exact guard of the publishing path of `main`. -/
def canonicalPort (env : IterEnv) : Option String :=
  if truthy env.udpResp && truthy env.tcpResp &&
      truthy (extractedPort env.udpResp) && truthy (extractedPort env.tcpResp)
  then extractedPort env.tcpResp
  else none

/-- One entry of a run trace: the state before the iteration, the
environment, the effects, and the state after. -/
structure TraceEntry where
  pre : LoopState
  env : IterEnv
  eff : IterEffects
  post : LoopState
deriving DecidableEq, Repr

/-- The trace of running the loop body over a list of environments. -/
def runTrace (sleepTime : Nat) : LoopState → List IterEnv → List TraceEntry
  | _, [] => []
  | s, env :: rest =>
      let r := loopStep sleepTime s env
      ⟨s, env, r.2, r.1⟩ :: runTrace sleepTime r.1 rest

/-- An event of a whole run: a completed loop iteration, delivery of
SIGTERM or SIGINT (handled by `handle_exit`, lines 108-121), or an
unhandled exception raised inside the `try` body (lines 189-191). -/
inductive Event where
  | iter (env : IterEnv)
  | sigterm
  | sigint
  | crash
deriving DecidableEq, Repr

/-- Outcome of processing a finite list of events: either the loop is
still running, or the process exited with a final port-file state and an
exit code.  `toolCalls` counts the gateway-tool invocations made so far. -/
inductive RunOutcome where
  | running (s : LoopState) (toolCalls : Nat)
  | exited (file : Option String) (code : Nat) (toolCalls : Nat)
deriving DecidableEq, Repr

/-- Gateway-tool invocations made by one iteration (UDP always, TCP only
when the UDP gate passed). -/
def toolCallsOf (eff : IterEffects) : Nat :=
  1 + (if eff.tcpCalled then 1 else 0)

/-- Process a list of events.  A signal runs `handle_exit`: the port file
is removed if present and `sys.exit(0)` is raised; the `SystemExit` is not
caught by `except Exception`, the `finally` clause finds the file already
absent, and the process exits 0.  An unhandled exception is logged, `main`
returns 1 after the `finally` clause removed the file, and the script
exits with that code.  Either way no later event is processed. -/
def runEvents (sleepTime : Nat) : LoopState → Nat → List Event → RunOutcome
  | s, calls, [] => RunOutcome.running s calls
  | s, calls, Event.iter env :: rest =>
      let r := loopStep sleepTime s env
      runEvents sleepTime r.1 (calls + toolCallsOf r.2) rest
  | _, calls, Event.sigterm :: _ => RunOutcome.exited none 0 calls
  | _, calls, Event.sigint :: _ => RunOutcome.exited none 0 calls
  | _, calls, Event.crash :: _ => RunOutcome.exited none 1 calls

/-- A file system as an association list from paths to contents, for the
cleanup primitives working through `os.path.exists` / `os.remove`. -/
abbrev FS := List (String × String)

/-- `os.path.exists(p)`. -/
def pathExists (fs : FS) (p : String) : Bool :=
  fs.any (fun e => e.fst == p)

/-- `os.remove(p)`: removes the entry, or raises `FileNotFoundError`
(modelled as `Except.error`) when the path is absent. -/
def osRemove (fs : FS) (p : String) : Except String FS :=
  if pathExists fs p then Except.ok (fs.filter (fun e => !(e.fst == p)))
  else Except.error "FileNotFoundError"

/-- The cleanup body `if os.path.exists(port_file): os.remove(port_file)`
used both in `handle_exit` (lines 112-113) and in the `finally` clause of
`main` (lines 195-196). -/
def clearPortFile (fs : FS) (p : String) : Except String FS :=
  if pathExists fs p then osRemove fs p else Except.ok fs

/-! ### Derived definitions used in statements and witnesses -/

/-- The log trace emitted before validation in an iteration whose two tool
calls both returned output (commands, extraction warnings). -/
def iterLogsPre (env : IterEnv) : List LogEvent :=
  (run_natpmpc_command "udp" env.udpResp).2 ++
    (extract_public_port (env.udpResp.getD "")).2 ++
    (run_natpmpc_command "tcp" env.tcpResp).2 ++
    (extract_public_port (env.tcpResp.getD "")).2

/-- The invariant carried by the loop when file writes succeed: the file
holds whatever `current_port` holds. -/
def Inv (s : LoopState) : Prop :=
  ∀ p, s.currentPort = some p → s.file = some p

/-- The environment of an iteration in which both tool calls map port
4000 and the file write succeeds, for concrete runs. -/
def env4000 : IterEnv :=
  ⟨some "Mapped public port 4000", some "Mapped public port 4000", true⟩

/-- A two-iteration run of `env4000` responses. -/
def envs4000 : List IterEnv := [env4000, env4000]

/-- The second entry of the trace of `envs4000` from a fresh state: the
port is already published, so the iteration writes nothing. -/
def entry4000 : TraceEntry :=
  ⟨⟨some "4000", some "4000"⟩, env4000,
    ⟨true, false, 45,
      [⟨Level.debug, "Running command for udp"⟩,
       ⟨Level.debug, "Running command for tcp"⟩]⟩,
    ⟨some "4000", some "4000"⟩⟩

/-! ### Helper lemmas about the embedding -/

theorem run_natpmpc_fst (p : String) (r : Option String) :
    (run_natpmpc_command p r).1 = r := by
  cases r <;> rfl

theorem truthy_eq_true_iff (r : Option String) :
    truthy r = true ↔ ∃ s, r = some s ∧ s ≠ "" := by
  cases r <;> simp [truthy, bne_iff_ne]

theorem loopStep_udpFail (st : Nat) (s : LoopState) (env : IterEnv)
    (hu : truthy env.udpResp = false) :
    loopStep st s env =
      (s, ⟨false, false, 5,
        (run_natpmpc_command "udp" env.udpResp).2 ++
          [⟨Level.error, "UDP forwarding failed, will retry"⟩]⟩) := by
  simp [loopStep, run_natpmpc_fst, hu]

theorem loopStep_tcpFail (st : Nat) (s : LoopState) (env : IterEnv)
    (hu : truthy env.udpResp = true) (ht : truthy env.tcpResp = false) :
    loopStep st s env =
      (s, ⟨true, false, 5,
        (run_natpmpc_command "udp" env.udpResp).2 ++
          (extract_public_port (env.udpResp.getD "")).2 ++
          (run_natpmpc_command "tcp" env.tcpResp).2 ++
          [⟨Level.error, "TCP forwarding failed, will retry"⟩]⟩) := by
  simp [loopStep, run_natpmpc_fst, hu, ht]

theorem loopStep_bothOut (st : Nat) (s : LoopState) (env : IterEnv)
    (hu : truthy env.udpResp = true) (ht : truthy env.tcpResp = true) :
    loopStep st s env =
      validateAndPublish st env.writeOk s (extractedPort env.udpResp)
        (extractedPort env.tcpResp) (iterLogsPre env) := by
  simp [loopStep, run_natpmpc_fst, hu, ht, extractedPort, iterLogsPre]

theorem validateAndPublish_tcpCalled (st : Nat) (w : Bool) (s : LoopState)
    (up tp : Option String) (logs : List LogEvent) :
    (validateAndPublish st w s up tp logs).2.tcpCalled = true := by
  unfold validateAndPublish
  split <;> [skip; rfl]
  split <;> (split <;> rfl)

theorem validateAndPublish_sleep (st : Nat) (w : Bool) (s : LoopState)
    (up tp : Option String) (logs : List LogEvent) :
    (validateAndPublish st w s up tp logs).2.sleepSecs = st := by
  unfold validateAndPublish
  split <;> [skip; rfl]
  split <;> (split <;> rfl)

theorem canonicalPort_elim (env : IterEnv) (t : String)
    (h : canonicalPort env = some t) :
    truthy env.udpResp = true ∧ truthy env.tcpResp = true ∧
      extractedPort env.tcpResp = some t ∧ t ≠ "" ∧
      ∃ u, extractedPort env.udpResp = some u ∧ u ≠ "" := by
  unfold canonicalPort at h
  split at h
  · rename_i hcond
    simp only [Bool.and_eq_true] at hcond
    obtain ⟨⟨⟨hu, htc⟩, hup⟩, htp⟩ := hcond
    obtain ⟨u, hu1, hu2⟩ := (truthy_eq_true_iff _).1 hup
    obtain ⟨t', ht1, ht2⟩ := (truthy_eq_true_iff _).1 htp
    refine ⟨hu, htc, h, ?_, u, hu1, hu2⟩
    rw [h] at ht1
    cases ht1
    exact ht2
  · exact absurd h (by simp)

theorem step_publish (st : Nat) (s : LoopState) (env : IterEnv) (t : String)
    (hc : canonicalPort env = some t) (hne : s.currentPort ≠ some t) :
    (loopStep st s env).1 =
        ⟨some t, (save_port_to_file t s.file env.writeOk).1⟩ ∧
      (loopStep st s env).2.saveCalled = true := by
  obtain ⟨hu, htc, htp, htne, u, hup, hune⟩ := canonicalPort_elim env t hc
  rw [loopStep_bothOut st s env hu htc, hup, htp]
  unfold validateAndPublish
  have h1 : (truthy (some u) && truthy (some t)) = true := by
    simp [truthy, bne_iff_ne, hune, htne]
  have h2 : (s.currentPort != some t) = true := bne_iff_ne.2 hne
  simp [h1, h2]

theorem step_nopublish (st : Nat) (s : LoopState) (env : IterEnv) (t : String)
    (hc : canonicalPort env = some t) (heq : s.currentPort = some t) :
    (loopStep st s env).1 = s ∧ (loopStep st s env).2.saveCalled = false ∧
      (loopStep st s env).2.sleepSecs = st := by
  obtain ⟨hu, htc, htp, htne, u, hup, hune⟩ := canonicalPort_elim env t hc
  rw [loopStep_bothOut st s env hu htc, hup, htp]
  unfold validateAndPublish
  have h1 : (truthy (some u) && truthy (some t)) = true := by
    simp [truthy, bne_iff_ne, hune, htne]
  have h2 : (s.currentPort != some t) = false := by simp [heq]
  simp [h1, h2]

theorem validateAndPublish_inv (st : Nat) (w : Bool) (s : LoopState)
    (up tp : Option String) (logs : List LogEvent)
    (hw : w = true) (hs : Inv s) :
    Inv (validateAndPublish st w s up tp logs).1 := by
  unfold validateAndPublish
  split
  · split <;> split
    · intro p hp
      simp only at hp
      simp [save_port_to_file, hw, hp]
    · exact fun p hp => hs p hp
    · intro p hp
      simp only at hp
      simp [save_port_to_file, hw, hp]
    · exact fun p hp => hs p hp
  · exact fun p hp => hs p hp

theorem step_inv (st : Nat) (s : LoopState) (env : IterEnv)
    (hw : env.writeOk = true) (hs : Inv s) : Inv (loopStep st s env).1 := by
  by_cases hu : truthy env.udpResp = true
  · by_cases ht : truthy env.tcpResp = true
    · rw [loopStep_bothOut st s env hu ht]
      exact validateAndPublish_inv _ _ _ _ _ _ hw hs
    · rw [loopStep_tcpFail st s env hu (by simpa using ht)]
      exact hs
  · rw [loopStep_udpFail st s env (by simpa using hu)]
    exact hs

theorem runTrace_entries (st : Nat) :
    ∀ (envs : List IterEnv) (s : LoopState),
      (∀ e ∈ envs, e.writeOk = true) → Inv s →
      ∀ entry ∈ runTrace st s envs,
        Inv entry.pre ∧ entry.eff = (loopStep st entry.pre entry.env).2 ∧
          entry.post = (loopStep st entry.pre entry.env).1 ∧
          entry.env.writeOk = true
  | [], _, _, _, _, hmem => absurd hmem (by simp [runTrace])
  | env :: rest, s, hw, hs, entry, hmem => by
    simp only [runTrace, List.mem_cons] at hmem
    rcases hmem with hmem | hmem
    · subst hmem
      exact ⟨hs, rfl, rfl, hw env (by simp)⟩
    · exact runTrace_entries st rest (loopStep st s env).1
        (fun e he => hw e (by simp [he]))
        (step_inv st s env (hw env (by simp)) hs) entry hmem

theorem regexMatchAt_nil (i : Nat) : regexMatchAt [] i = false := by
  have h : (([] : List Char) == mappedPat) = false := by decide
  simp [regexMatchAt, startsWithAt, List.drop_nil, List.take_nil, h]

theorem regexMatchAt_cons (c : Char) (cs : List Char) (i : Nat) :
    regexMatchAt (c :: cs) (i + 1) = regexMatchAt cs i := rfl

theorem digitRunAt_cons (c : Char) (cs : List Char) (i : Nat) :
    digitRunAt (c :: cs) (i + 1) = digitRunAt cs i := rfl

/-- `re.search` semantics of the scan: a returned capture is the digit run
at the leftmost index where the pattern matches, and `none` is returned
exactly when the pattern matches nowhere. -/
theorem findMapped_characterization (cs : List Char) :
    (∀ s, findMapped cs = some s →
        ∃ i, regexMatchAt cs i = true ∧
          (∀ j, j < i → regexMatchAt cs j = false) ∧
          s = String.mk (digitRunAt cs i)) ∧
      (findMapped cs = none → ∀ i, regexMatchAt cs i = false) := by
  induction cs with
  | nil =>
    refine ⟨fun s hs => ?_, fun _ i => regexMatchAt_nil i⟩
    simp [findMapped] at hs
  | cons c rest ih =>
    by_cases h0 : regexMatchAt (c :: rest) 0 = true
    · constructor
      · intro s hs
        simp only [findMapped, h0, if_true, Option.some.injEq] at hs
        exact ⟨0, h0, fun j hj => absurd hj (Nat.not_lt_zero j), hs.symm⟩
      · intro hn
        simp [findMapped, h0] at hn
    · have h0' : regexMatchAt (c :: rest) 0 = false := by simpa using h0
      have hstep : findMapped (c :: rest) = findMapped rest := by
        simp [findMapped, h0']
      constructor
      · intro s hs
        rw [hstep] at hs
        obtain ⟨i, hi, hmin, hsv⟩ := ih.1 s hs
        refine ⟨i + 1, ?_, ?_, ?_⟩
        · rw [regexMatchAt_cons]; exact hi
        · intro j hj
          cases j with
          | zero => exact h0'
          | succ k => rw [regexMatchAt_cons]; exact hmin k (by omega)
        · rw [digitRunAt_cons]; exact hsv
      · intro hn i
        rw [hstep] at hn
        cases i with
        | zero => exact h0'
        | succ k => rw [regexMatchAt_cons]; exact ih.2 hn k

theorem pathExists_filter_self (fs : FS) (p : String) :
    pathExists (fs.filter fun e => !(e.fst == p)) p = false := by
  simp [pathExists, List.any_eq_false, List.mem_filter]

theorem step_mismatch_log (st : Nat) (s : LoopState) (env : IterEnv)
    (t u : String) (hc : canonicalPort env = some t)
    (hup : extractedPort env.udpResp = some u) (hne : u ≠ t) :
    LogEvent.mk Level.warning "UDP port does not match TCP port" ∈
      (loopStep st s env).2.logs := by
  obtain ⟨hu, htc, htp, htne, u', hup', hune⟩ := canonicalPort_elim env t hc
  rw [hup] at hup'
  cases hup'
  rw [loopStep_bothOut st s env hu htc, hup, htp]
  unfold validateAndPublish
  have h1 : (truthy (some u) && truthy (some t)) = true := by
    simp [truthy, bne_iff_ne, hune, htne]
  have h2 : ((some u : Option String) != some t) = true := by
    simp [bne_iff_ne, hne]
  simp only [h1, h2, if_true]
  split <;> simp

theorem step_writefail_log (st : Nat) (s : LoopState) (env : IterEnv)
    (t : String) (hc : canonicalPort env = some t)
    (hne : s.currentPort ≠ some t) (hw : env.writeOk = false) :
    LogEvent.mk Level.error "Failed to write port to file" ∈
      (loopStep st s env).2.logs := by
  obtain ⟨hu, htc, htp, htne, u, hup, hune⟩ := canonicalPort_elim env t hc
  rw [loopStep_bothOut st s env hu htc, hup, htp]
  unfold validateAndPublish
  have h1 : (truthy (some u) && truthy (some t)) = true := by
    simp [truthy, bne_iff_ne, hune, htne]
  have h2 : (s.currentPort != some t) = true := bne_iff_ne.2 hne
  simp [h1, h2, save_port_to_file, hw]

/-! ### Claim theorems -/

/-- C1: for every sequence of gateway responses in which file writes
succeed, after any iteration whose UDP and TCP ports were both parsed, the
published file and the in-memory `current_port` both equal that
iteration's canonical (TCP-derived) port, and `save_port_to_file` is
called in that iteration exactly when the canonical port differs from the
previous `current_port`; same-port iterations perform no write. -/
theorem published_file_matches_canonical (st : Nat) (f0 : Option String)
    (envs : List IterEnv) (hw : ∀ e ∈ envs, e.writeOk = true)
    (entry : TraceEntry) (hmem : entry ∈ runTrace st ⟨none, f0⟩ envs)
    (t : String) (ht : canonicalPort entry.env = some t) :
    entry.post.file = some t ∧ entry.post.currentPort = some t ∧
      (entry.eff.saveCalled = true ↔ entry.pre.currentPort ≠ some t) := by
  obtain ⟨hinv, heff, hpost, hwok⟩ :=
    runTrace_entries st envs ⟨none, f0⟩ hw (fun p hp => by simp at hp)
      entry hmem
  by_cases hcur : entry.pre.currentPort = some t
  · obtain ⟨h1, h2, _⟩ := step_nopublish st entry.pre entry.env t ht hcur
    rw [hpost, h1]
    refine ⟨hinv t hcur, hcur, ?_⟩
    rw [heff, h2]
    simp [hcur]
  · obtain ⟨h1, h2⟩ := step_publish st entry.pre entry.env t ht hcur
    rw [hpost, h1]
    refine ⟨?_, rfl, ?_⟩
    · simp [save_port_to_file, hwok]
    · rw [heff, h2]
      simp [hcur]

/-- C2 (amended): a failed file write is logged at error level and is
non-fatal (the iteration still ends in a normal sleep), but `current_port`
is updated *before* the write is attempted, so a next iteration that
validates the same canonical port performs no retry of the write. -/
theorem writefail_updates_current_no_retry (st : Nat) (s : LoopState)
    (env env2 : IterEnv) (t : String)
    (hc : canonicalPort env = some t) (hw : env.writeOk = false)
    (hne : s.currentPort ≠ some t) (hc2 : canonicalPort env2 = some t) :
    LogEvent.mk Level.error "Failed to write port to file" ∈
        (loopStep st s env).2.logs ∧
      (loopStep st s env).2.sleepSecs = st ∧
      (loopStep st s env).1.currentPort = some t ∧
      (loopStep st s env).1.file = s.file ∧
      (loopStep st (loopStep st s env).1 env2).2.saveCalled = false := by
  obtain ⟨h1, _⟩ := step_publish st s env t hc hne
  refine ⟨step_writefail_log st s env t hc hne hw, ?_, ?_, ?_, ?_⟩
  · obtain ⟨hu, htc, _, _, _, _, _⟩ := canonicalPort_elim env t hc
    rw [loopStep_bothOut st s env hu htc]
    exact validateAndPublish_sleep _ _ _ _ _ _
  · rw [h1]
  · rw [h1]
    simp [save_port_to_file, hw]
  · have hcur : (loopStep st s env).1.currentPort = some t := by rw [h1]
    exact (step_nopublish st (loopStep st s env).1 env2 t hc2 hcur).2.1

/-- C2 is false as stated: with gateway output mapping port 4000 in both
protocols, a failed write in the first iteration still updates
`current_port`, so the second iteration (same port, write would now
succeed) does not retry the write and the file stays absent. -/
theorem writefail_no_retry_cex :
    (loopStep 45 ⟨none, none⟩
        ⟨some "Mapped public port 4000", some "Mapped public port 4000",
          false⟩).1.currentPort = some "4000" ∧
      (loopStep 45 ⟨none, none⟩
        ⟨some "Mapped public port 4000", some "Mapped public port 4000",
          false⟩).1.file = none ∧
      (loopStep 45
          (loopStep 45 ⟨none, none⟩
            ⟨some "Mapped public port 4000", some "Mapped public port 4000",
              false⟩).1
          ⟨some "Mapped public port 4000", some "Mapped public port 4000",
            true⟩).2.saveCalled = false ∧
      (loopStep 45
          (loopStep 45 ⟨none, none⟩
            ⟨some "Mapped public port 4000", some "Mapped public port 4000",
              false⟩).1
          ⟨some "Mapped public port 4000", some "Mapped public port 4000",
            true⟩).1.file = none := by
  decide

/-- C3: when both ports are parsed but differ, a mismatch warning is
logged, the iteration still ends in the normal sleep, the TCP port becomes
the canonical `current_port`, and when it differs from the previous value
and the write succeeds it is the value written to the file. -/
theorem mismatch_warns_and_uses_tcp (st : Nat) (s : LoopState)
    (env : IterEnv) (u t : String) (hc : canonicalPort env = some t)
    (hup : extractedPort env.udpResp = some u) (hne : u ≠ t) :
    LogEvent.mk Level.warning "UDP port does not match TCP port" ∈
        (loopStep st s env).2.logs ∧
      (loopStep st s env).2.sleepSecs = st ∧
      (loopStep st s env).1.currentPort = some t ∧
      (s.currentPort ≠ some t → env.writeOk = true →
        (loopStep st s env).1.file = some t) := by
  obtain ⟨hu, htc, _, _, _, _, _⟩ := canonicalPort_elim env t hc
  refine ⟨step_mismatch_log st s env t u hc hup hne, ?_, ?_, ?_⟩
  · rw [loopStep_bothOut st s env hu htc]
    exact validateAndPublish_sleep _ _ _ _ _ _
  · by_cases hcur : s.currentPort = some t
    · rw [(step_nopublish st s env t hc hcur).1]
      exact hcur
    · rw [(step_publish st s env t hc hcur).1]
  · intro hcur hwok
    rw [(step_publish st s env t hc hcur).1]
    simp [save_port_to_file, hwok]

/-- C4: when the UDP tool call fails (non-zero exit), or the UDP call
succeeded with output but the TCP call fails, the iteration leaves state
and file untouched, performs no write, and sleeps the fixed 5-second
backoff regardless of the configured sleep interval. -/
theorem toolfail_backoff_no_state_change (st : Nat) (s : LoopState)
    (env : IterEnv)
    (h : env.udpResp = none ∨ (truthy env.udpResp = true ∧ env.tcpResp = none)) :
    (loopStep st s env).1 = s ∧ (loopStep st s env).2.sleepSecs = 5 ∧
      (loopStep st s env).2.saveCalled = false := by
  rcases h with h | ⟨hu, h⟩
  · rw [loopStep_udpFail st s env (by simp [h, truthy])]
    exact ⟨rfl, rfl, rfl⟩
  · rw [loopStep_tcpFail st s env hu (by simp [h, truthy])]
    exact ⟨rfl, rfl, rfl⟩

/-- C5: when both tool calls return output but either port cannot be
parsed, the iteration logs the extraction warning, changes neither state
nor file, performs no write, and sleeps the full configured interval. -/
theorem parsefail_skips_publish_sleeps_normally (st : Nat) (s : LoopState)
    (env : IterEnv) (hu : truthy env.udpResp = true)
    (ht : truthy env.tcpResp = true)
    (h : extractedPort env.udpResp = none ∨ extractedPort env.tcpResp = none) :
    (loopStep st s env).1 = s ∧
      (loopStep st s env).2.saveCalled = false ∧
      (loopStep st s env).2.sleepSecs = st ∧
      LogEvent.mk Level.warning "Failed to extract ports from output" ∈
        (loopStep st s env).2.logs := by
  rw [loopStep_bothOut st s env hu ht]
  unfold validateAndPublish
  have hcond :
      (truthy (extractedPort env.udpResp) &&
        truthy (extractedPort env.tcpResp)) = false := by
    rcases h with h | h <;> simp [h, truthy]
  simp [hcond]

/-- C6: a SIGTERM or SIGINT event makes the run exit with the port file
removed and code 0, processing no later event (hence no further gateway
calls: the tool-call counter is whatever it was at the signal); a crash
event exits with the file removed and code 1. -/
theorem shutdown_removes_file_and_sets_code (st : Nat) (s : LoopState)
    (calls : Nat) (pre : List IterEnv) (rest : List Event) :
    (∃ n, runEvents st s calls (pre.map Event.iter ++ Event.sigterm :: rest) =
        RunOutcome.exited none 0 n ∧
      runEvents st s calls (pre.map Event.iter ++ Event.sigterm :: rest) =
        runEvents st s calls (pre.map Event.iter ++ [Event.sigterm])) ∧
      (∃ n, runEvents st s calls (pre.map Event.iter ++ Event.sigint :: rest) =
        RunOutcome.exited none 0 n) ∧
      (∃ n, runEvents st s calls (pre.map Event.iter ++ Event.crash :: rest) =
        RunOutcome.exited none 1 n) := by
  induction pre generalizing s calls with
  | nil => exact ⟨⟨calls, rfl, rfl⟩, ⟨calls, rfl⟩, ⟨calls, rfl⟩⟩
  | cons e es ih =>
    simpa only [List.map_cons, List.cons_append, runEvents] using
      ih (loopStep st s e).1 (calls + toolCallsOf (loopStep st s e).2)

/-- C7: the cleanup `if os.path.exists(p): os.remove(p)` never raises,
leaves no file at `p`, and running it a second time is a no-op. -/
theorem clear_is_idempotent_and_total (fs : FS) (p : String) :
    ∃ fs2, clearPortFile fs p = Except.ok fs2 ∧
      pathExists fs2 p = false ∧ clearPortFile fs2 p = Except.ok fs2 := by
  by_cases h : pathExists fs p = true
  · refine ⟨fs.filter fun e => !(e.fst == p), ?_, pathExists_filter_self fs p, ?_⟩
    · simp [clearPortFile, osRemove, h]
    · simp [clearPortFile, pathExists_filter_self fs p]
  · have h' : pathExists fs p = false := by simpa using h
    exact ⟨fs, by simp [clearPortFile, h'], h', by simp [clearPortFile, h']⟩

/-- C8 (amended): the extractor returns exactly the digit run of the
leftmost occurrence of "Mapped public port " followed by a digit, and
`none` exactly when no such occurrence exists; on a nonempty output with
no occurrence it logs the parse warning (an empty output yields `none`
silently), and its log trace never reaches error level, while a tool
failure returns `None` with error-level (never warning-level) logs. -/
theorem extract_public_port_spec (output : String) (protocol : String) :
    (∀ s, (extract_public_port output).1 = some s →
        ∃ i, regexMatchAt output.toList i = true ∧
          (∀ j, j < i → regexMatchAt output.toList j = false) ∧
          s = String.mk (digitRunAt output.toList i)) ∧
      ((extract_public_port output).1 = none →
        ∀ i, regexMatchAt output.toList i = false) ∧
      (output ≠ "" → findMapped output.toList = none →
        LogEvent.mk Level.warning "Could not find public port in output" ∈
          (extract_public_port output).2) ∧
      (∀ ev ∈ (extract_public_port output).2, ev.level ≠ Level.error) ∧
      ((run_natpmpc_command protocol none).1 = none ∧
        LogEvent.mk Level.error (s!"natpmpc command failed for {protocol}") ∈
          (run_natpmpc_command protocol none).2 ∧
        ∀ ev ∈ (run_natpmpc_command protocol none).2,
          ev.level ≠ Level.warning) := by
  refine ⟨?_, ?_, ?_, ?_, rfl, by simp [run_natpmpc_command], ?_⟩
  · intro s hs
    by_cases hout : output = ""
    · simp [extract_public_port, hout] at hs
    · cases hf : findMapped output.data with
      | none => simp [extract_public_port, hout, hf] at hs
      | some p =>
        have hsp : p = s := by
          simpa [extract_public_port, hout, hf] using hs
        have hf' : findMapped output.toList = some s := hsp ▸ hf
        exact (findMapped_characterization output.toList).1 s hf'
  · intro hnone i
    by_cases hout : output = ""
    · rw [hout]
      exact regexMatchAt_nil i
    · cases hf : findMapped output.data with
      | none =>
        exact (findMapped_characterization output.toList).2 hf i
      | some p =>
        simp [extract_public_port, hout, hf] at hnone
  · intro hout hf
    have hf' : findMapped output.data = none := hf
    simp [extract_public_port, hout, hf']
  · intro ev hev
    by_cases hout : output = ""
    · simp [extract_public_port, hout] at hev
    · cases hf : findMapped output.data with
      | none =>
        have : ev = LogEvent.mk Level.warning
              "Could not find public port in output" ∨
            ev = LogEvent.mk Level.debug (s!"Full output: {output}") := by
          simpa [extract_public_port, hout, hf] using hev
        rcases this with h | h <;> subst h <;> simp
      | some p => simp [extract_public_port, hout, hf] at hev
  · intro ev hev
    have : ev = LogEvent.mk Level.debug (s!"Running command for {protocol}") ∨
        ev = LogEvent.mk Level.error
          (s!"natpmpc command failed for {protocol}") ∨
        ev = LogEvent.mk Level.error "Error output captured" := by
      simpa [run_natpmpc_command] using hev
    rcases this with h | h | h <;> subst h <;> simp

/-- C8 is false as stated at the concrete output "": the pattern is absent
from the empty output, yet `extract_public_port` returns `None` without
emitting any log event, so no warning is logged. -/
theorem extract_empty_no_warning_cex :
    extract_public_port "" = (none, []) ∧ findMapped "".toList = none := by
  decide

/-- C9: a tool call that exits zero but prints nothing is routed to the
tool-failure path: the 5-second backoff, no write, no state change, and
for an empty UDP output no TCP call at all. -/
theorem empty_output_goes_to_backoff (st : Nat) (s : LoopState)
    (env : IterEnv)
    (h : env.udpResp = some "" ∨
      (truthy env.udpResp = true ∧ env.tcpResp = some "")) :
    (loopStep st s env).1 = s ∧ (loopStep st s env).2.sleepSecs = 5 ∧
      (loopStep st s env).2.saveCalled = false ∧
      (env.udpResp = some "" → (loopStep st s env).2.tcpCalled = false ∧
        LogEvent.mk Level.error "UDP forwarding failed, will retry" ∈
          (loopStep st s env).2.logs) := by
  rcases h with h | ⟨hu, h⟩
  · rw [loopStep_udpFail st s env (by simp [h, truthy])]
    exact ⟨rfl, rfl, rfl, fun _ => ⟨rfl, by simp⟩⟩
  · rw [loopStep_tcpFail st s env hu (by simp [h, truthy])]
    refine ⟨rfl, rfl, rfl, fun hu' => ?_⟩
    rw [hu'] at hu
    simp [truthy] at hu

/-- C10: the TCP tool call is issued in an iteration exactly when the UDP
call returned truthy (non-`None`, nonempty) output. -/
theorem tcp_called_iff_udp_output (st : Nat) (s : LoopState) (env : IterEnv) :
    (loopStep st s env).2.tcpCalled = truthy env.udpResp := by
  by_cases hu : truthy env.udpResp = true
  · by_cases ht : truthy env.tcpResp = true
    · rw [loopStep_bothOut st s env hu ht, hu]
      exact validateAndPublish_tcpCalled _ _ _ _ _ _
    · rw [loopStep_tcpFail st s env hu (by simpa using ht), hu]
  · rw [loopStep_udpFail st s env (by simpa using hu)]
    simp [(by simpa using hu : truthy env.udpResp = false)]

/-! ### Witnesses: the claim theorems applied at concrete inputs -/

/-- Witness for C1 at the second iteration of a constant-4000 run. -/
theorem published_file_matches_canonical_witness :
    entry4000.post.file = some "4000" ∧
      entry4000.post.currentPort = some "4000" ∧
      (entry4000.eff.saveCalled = true ↔
        entry4000.pre.currentPort ≠ some "4000") :=
  published_file_matches_canonical 45 none envs4000 (by decide) entry4000
    (by decide) "4000" (by decide)

/-- Witness for C2 (amended) with a failing then a succeeding write. -/
theorem writefail_updates_current_no_retry_witness :
    LogEvent.mk Level.error "Failed to write port to file" ∈
        (loopStep 45 ⟨none, none⟩
          ⟨some "Mapped public port 4000", some "Mapped public port 4000",
            false⟩).2.logs ∧
      (loopStep 45 ⟨none, none⟩
        ⟨some "Mapped public port 4000", some "Mapped public port 4000",
          false⟩).2.sleepSecs = 45 ∧
      (loopStep 45 ⟨none, none⟩
        ⟨some "Mapped public port 4000", some "Mapped public port 4000",
          false⟩).1.currentPort = some "4000" ∧
      (loopStep 45 ⟨none, none⟩
        ⟨some "Mapped public port 4000", some "Mapped public port 4000",
          false⟩).1.file = (⟨none, none⟩ : LoopState).file ∧
      (loopStep 45
          (loopStep 45 ⟨none, none⟩
            ⟨some "Mapped public port 4000", some "Mapped public port 4000",
              false⟩).1
          env4000).2.saveCalled = false :=
  writefail_updates_current_no_retry 45 ⟨none, none⟩
    ⟨some "Mapped public port 4000", some "Mapped public port 4000", false⟩
    env4000 "4000" (by decide) rfl (by decide) (by decide)

/-- Witness for C3 with UDP port 4000 against TCP port 4001. -/
theorem mismatch_warns_and_uses_tcp_witness :
    LogEvent.mk Level.warning "UDP port does not match TCP port" ∈
        (loopStep 45 ⟨none, none⟩
          ⟨some "Mapped public port 4000", some "Mapped public port 4001",
            true⟩).2.logs ∧
      (loopStep 45 ⟨none, none⟩
        ⟨some "Mapped public port 4000", some "Mapped public port 4001",
          true⟩).2.sleepSecs = 45 ∧
      (loopStep 45 ⟨none, none⟩
        ⟨some "Mapped public port 4000", some "Mapped public port 4001",
          true⟩).1.currentPort = some "4001" ∧
      ((⟨none, none⟩ : LoopState).currentPort ≠ some "4001" →
        (⟨some "Mapped public port 4000", some "Mapped public port 4001",
          true⟩ : IterEnv).writeOk = true →
        (loopStep 45 ⟨none, none⟩
          ⟨some "Mapped public port 4000", some "Mapped public port 4001",
            true⟩).1.file = some "4001") :=
  mismatch_warns_and_uses_tcp 45 ⟨none, none⟩
    ⟨some "Mapped public port 4000", some "Mapped public port 4001", true⟩
    "4000" "4001" (by decide) (by decide) (by decide)

/-- Witness for C4 with a failed (non-zero exit) UDP invocation. -/
theorem toolfail_backoff_no_state_change_witness :
    (loopStep 45 ⟨some "4000", some "4000"⟩ ⟨none, none, true⟩).1 =
        ⟨some "4000", some "4000"⟩ ∧
      (loopStep 45 ⟨some "4000", some "4000"⟩
        ⟨none, none, true⟩).2.sleepSecs = 5 ∧
      (loopStep 45 ⟨some "4000", some "4000"⟩
        ⟨none, none, true⟩).2.saveCalled = false :=
  toolfail_backoff_no_state_change 45 ⟨some "4000", some "4000"⟩
    ⟨none, none, true⟩ (Or.inl rfl)

/-- Witness for C5 with output in which no port pattern occurs. -/
theorem parsefail_skips_publish_sleeps_normally_witness :
    (loopStep 45 ⟨some "4000", some "4000"⟩
        ⟨some "gateway said no", some "gateway said no", true⟩).1 =
        ⟨some "4000", some "4000"⟩ ∧
      (loopStep 45 ⟨some "4000", some "4000"⟩
        ⟨some "gateway said no", some "gateway said no",
          true⟩).2.saveCalled = false ∧
      (loopStep 45 ⟨some "4000", some "4000"⟩
        ⟨some "gateway said no", some "gateway said no",
          true⟩).2.sleepSecs = 45 ∧
      LogEvent.mk Level.warning "Failed to extract ports from output" ∈
        (loopStep 45 ⟨some "4000", some "4000"⟩
          ⟨some "gateway said no", some "gateway said no",
            true⟩).2.logs :=
  parsefail_skips_publish_sleeps_normally 45 ⟨some "4000", some "4000"⟩
    ⟨some "gateway said no", some "gateway said no", true⟩
    (by decide) (by decide) (by decide)

/-- Witness for C8 (amended): a successful extraction away from index 0,
and the warning on a pattern-free nonempty output. -/
theorem extract_public_port_spec_witness :
    (∃ i, regexMatchAt "x Mapped public port 123".toList i = true ∧
        (∀ j, j < i →
          regexMatchAt "x Mapped public port 123".toList j = false) ∧
        "123" = String.mk (digitRunAt "x Mapped public port 123".toList i)) ∧
      LogEvent.mk Level.warning "Could not find public port in output" ∈
        (extract_public_port "gateway said no").2 :=
  ⟨(extract_public_port_spec "x Mapped public port 123" "udp").1 "123"
      (by decide),
    (extract_public_port_spec "gateway said no" "udp").2.2.1 (by decide)
      (by decide)⟩

/-- Witness for C9 with an empty UDP stdout. -/
theorem empty_output_goes_to_backoff_witness :
    (loopStep 45 ⟨some "4000", some "4000"⟩
        ⟨some "", some "Mapped public port 4000", true⟩).1 =
        ⟨some "4000", some "4000"⟩ ∧
      (loopStep 45 ⟨some "4000", some "4000"⟩
        ⟨some "", some "Mapped public port 4000", true⟩).2.sleepSecs = 5 ∧
      (loopStep 45 ⟨some "4000", some "4000"⟩
        ⟨some "", some "Mapped public port 4000", true⟩).2.saveCalled =
        false ∧
      ((⟨some "", some "Mapped public port 4000", true⟩ : IterEnv).udpResp =
          some "" →
        (loopStep 45 ⟨some "4000", some "4000"⟩
          ⟨some "", some "Mapped public port 4000", true⟩).2.tcpCalled =
            false ∧
          LogEvent.mk Level.error "UDP forwarding failed, will retry" ∈
            (loopStep 45 ⟨some "4000", some "4000"⟩
              ⟨some "", some "Mapped public port 4000", true⟩).2.logs) :=
  empty_output_goes_to_backoff 45 ⟨some "4000", some "4000"⟩
    ⟨some "", some "Mapped public port 4000", true⟩ (Or.inl rfl)

end AutoNatpmp
